import Mathlib

/-!
Shallow embedding of `rtsp-to-kvs` (src/main.rs): a CLI bridge that pulls an
RTSP stream into a GStreamer pipeline and routes it either to local playback
or to an AWS Kinesis Video Streams (KVS) ingestion sink.  The embedding
models, faithfully to the Rust source:

* the KVS sink setup (`setup_kvssink`), including the
  `Option::ok_or_else(|| env::var(..))` pattern used for the credential and
  stream-name fields and the order of element creation, property assignment,
  pipeline membership and linking;
* the `pad-added` negotiation handler closure registered on the RTSP source;
* the bus event loop in `main` and the final `set_state(Null)` call;
* (modelled from the spec, since the graph operations live in the external
  GStreamer runtime) the pipeline graph's `add` / `add_many` operations.

Machine-level effects (logging targets, threads) are modelled as explicit
traces: every run returns the list of log records it would emit, the list of
elements it created, the properties it assigned, and so on.
-/

namespace RtspToKvs

/-- Log severity used by the `log` crate calls in `main.rs`
(`log::info!`, `log::warn!`, `log::error!`, `log::debug!`). -/
inductive LogLevel where
  | info
  | warn
  | error
  | debug
deriving DecidableEq, Repr

/-- One emitted log record: a severity and the formatted text. -/
structure LogMsg where
  level : LogLevel
  text : String
deriving DecidableEq, Repr

/-- The `KvsConfig` clap argument group: all four fields are optional
command-line arguments. -/
structure KvsConfig where
  aws_access_key_id : Option String
  aws_secret_key : Option String
  stream_name : Option String
  aws_region : Option String
deriving DecidableEq, Repr

/-- The error type of `std::env::var`.  Only the absence case matters here;
`env::var` also fails on non-unicode values, which strings cannot model and
which the program never distinguishes. -/
inductive VarError where
  | notPresent
deriving DecidableEq, Repr

/-- The process environment, as an association list of variable bindings. -/
def Env : Type := List (String × String)

/-- Model of `std::env::var(name)`: `Ok(value)` when the variable is bound,
`Err(VarError)` otherwise. -/
def envVar (env : Env) (name : String) : Except VarError String :=
  match List.lookup name env with
  | some v => Except.ok v
  | none => Except.error VarError.notPresent

/-- Rust's `Option::ok_or_else`: `Some(v)` becomes `Ok(v)` and `None`
becomes `Err(e)` where `e` is the (already evaluated) alternative.  In
`main.rs` the alternative is itself the `Result` of `env::var`, so the
result type is an `Except` nested inside the error position — exactly the
shape the source produces with
`config_field.as_ref().ok_or_else(|| env::var(NAME))`. -/
def okOrElse {α β : Type} (o : Option α) (e : β) : Except β α :=
  match o with
  | some v => Except.ok v
  | none => Except.error e

/-- Trace of one call to `setup_kvssink`:
`created` is the list of `(factory_name, element_name)` pairs passed to
`create_element`, in order; `kvssinkProps` is the ordered list of
`(property, value)` assignments performed on the `kvssink` element;
`added` is the list of element names passed to `pipeline.add_many`;
`linked` is the list of element pairs linked by `gst::Element::link_many`;
`result` is the value returned to `main` (`Ok(())` or the `anyhow` error). -/
structure SetupOutcome where
  created : List (String × String)
  kvssinkProps : List (String × String)
  added : List String
  linked : List (String × String)
  result : Except String Unit
deriving Repr

/-- The `anyhow!` message produced when the stream name is missing. -/
def missingStreamNameMsg : String :=
  "KVS stream name must be specified via command line argument or environment variable"

/-- Embedding of `setup_kvssink` (main.rs lines 106-140), line by line:

1. create `h264parse` and `kvssink`;
2. `if let Ok(access_key) = kvs_config.aws_access_key_id.as_ref().ok_or_else(|| env::var("AWS_ACCESS_KEY"))`
   — note the outer `Result` is `Ok` exactly when the explicit field is
   present; a `None` field yields `Err(env::var(..))`, so the branch is not
   taken even when the environment variable is set;
3. the same pattern for the secret key with `AWS_SECRET_ACCESS_KEY`;
4. the same pattern for the stream name with `KVS_STREAM_NAME`, but here the
   `Err` case is mapped to an `anyhow` error and returned early with `?`;
5. optional `aws-region` assignment from the explicit field only;
6. `pipeline.add_many` over source, depay, parse, sink and
   `gst::Element::link_many` over depay, parse, sink.

Element creation and property assignment are modelled as succeeding
(`h264parse` and `kvssink` factories registered, the four property names
valid for `kvssink`), which is the scenario every claim about this function
quantifies over. -/
def setup_kvssink (kvs_config : KvsConfig) (env : Env) : SetupOutcome :=
  let created := [("h264parse", "h264parse"), ("kvssink", "kvssink")]
  let props0 : List (String × String) := []
  let props1 :=
    match okOrElse kvs_config.aws_access_key_id (envVar env "AWS_ACCESS_KEY") with
    | Except.ok access_key => props0 ++ [("access-key", access_key)]
    | Except.error _ => props0
  let props2 :=
    match okOrElse kvs_config.aws_secret_key (envVar env "AWS_SECRET_ACCESS_KEY") with
    | Except.ok aws_secret_key => props1 ++ [("secret-key", aws_secret_key)]
    | Except.error _ => props1
  match okOrElse kvs_config.stream_name (envVar env "KVS_STREAM_NAME") with
  | Except.error _ =>
      { created := created
        kvssinkProps := props2
        added := []
        linked := []
        result := Except.error missingStreamNameMsg }
  | Except.ok stream_name =>
      let props3 := props2 ++ [("stream-name", stream_name)]
      let props4 :=
        match kvs_config.aws_region with
        | some aws_region => props3 ++ [("aws-region", aws_region)]
        | none => props3
      { created := created
        kvssinkProps := props4
        added := ["source", "rtph264depay", "h264parse", "kvssink"]
        linked := [("rtph264depay", "h264parse"), ("h264parse", "kvssink")]
        result := Except.ok () }

/-- One structure of a GStreamer caps object: a media-type name (e.g.
"application/x-rtp") plus a key/value attribute map.  `main.rs` reads the
"media" attribute as a `String`, so string-valued attributes suffice. -/
structure CapsStruct where
  name : String
  fields : List (String × String)
deriving DecidableEq, Repr

/-- The producing pad handed to the `pad-added` callback: its name and its
currently negotiated caps (`None` when negotiation has not produced caps, a
list of structures otherwise — `structure(0)` is the head). -/
structure SrcPad where
  padName : String
  currentCaps : Option (List CapsStruct)
deriving DecidableEq, Repr

/-- The mutable state the `pad-added` closure reads and writes: the link
state of the `rtph264depay` element's static "sink" pad, as the list of
producer-pad names currently linked into it (GStreamer allows at most one;
`is_linked()` is the test against `[]`). -/
structure HandlerState where
  sinkLinkedFrom : List String
deriving DecidableEq, Repr

/-- Everything one invocation of the `pad-added` closure does:
the state it leaves behind, the log records it emits in order, whether it
read the new pad's caps (`current_caps()`), whether it called
`src_pad.link(&sink_pad)`, and whether it panicked (an `expect` failed). -/
structure HandlerResult where
  state : HandlerState
  logs : List LogMsg
  readCaps : Bool
  linkAttempted : Bool
  panicked : Bool
deriving DecidableEq, Repr

/-- The predicate `main.rs` line 182 applies to the first caps structure:
`new_pad_struct.name() == "application/x-rtp" && new_pad_struct.get("media").map_or(false, |m: String| m == "video")`. -/
def acceptsStruct (s : CapsStruct) : Bool :=
  s.name == "application/x-rtp"
    && (((List.lookup "media" s.fields).map (fun m => m == "video")).getD false)

/-- Embedding of the `connect_pad_added` closure (main.rs lines 171-188).
`srcName` is the name of the element that exposed the pad ("source"),
`srcPad` the new producing pad, `linkOk` whether the GStreamer runtime
accepts the `src_pad.link(&sink_pad)` call (an environment oracle), and
`st` the link state of the depayloader's sink pad at invocation time.

Control flow, in source order: log the arrival; if the sink pad is already
linked, log and return; read the caps (`expect` panics when absent) and
their first structure (`expect` panics when the caps are empty); if the
structure is accepted, attempt the link and log success at info or failure
at error; otherwise fall through silently. -/
def pad_added (srcName : String) (srcPad : SrcPad) (linkOk : Bool)
    (st : HandlerState) : HandlerResult :=
  let logs0 : List LogMsg :=
    [⟨LogLevel.info,
      "[rtspsrc] Received new pad " ++ srcPad.padName ++ " from " ++ srcName⟩]
  if st.sinkLinkedFrom ≠ [] then
    { state := st
      logs := logs0 ++ [⟨LogLevel.info, "Already linked; ignoring"⟩]
      readCaps := false
      linkAttempted := false
      panicked := false }
  else
    match srcPad.currentCaps with
    | none =>
        { state := st, logs := logs0, readCaps := true
          linkAttempted := false, panicked := true }
    | some caps =>
        match caps.head? with
        | none =>
            { state := st, logs := logs0, readCaps := true
              linkAttempted := false, panicked := true }
        | some s =>
            if acceptsStruct s then
              if linkOk then
                { state := ⟨st.sinkLinkedFrom ++ [srcPad.padName]⟩
                  logs := logs0 ++ [⟨LogLevel.info, "Link succeeded"⟩]
                  readCaps := true
                  linkAttempted := true
                  panicked := false }
              else
                { state := st
                  logs := logs0 ++ [⟨LogLevel.error, "Failed to link"⟩]
                  readCaps := true
                  linkAttempted := true
                  panicked := false }
            else
              { state := st, logs := logs0, readCaps := true
                linkAttempted := false, panicked := false }

/-- A bus message as `main.rs` line 195 views it: Error, Warning and Info
carry the originating element's path (when present), the message text and an
optional debug detail, matching the `gst_log!` macro's reads
(`msg.src().map(|s| s.path_string())`, `msg.error()`, `msg.debug()`). -/
inductive Message where
  | error (src : Option String) (text : String) (dbg : Option String)
  | warning (src : Option String) (text : String) (dbg : Option String)
  | info (src : Option String) (text : String) (dbg : Option String)
  | eos
  | other
deriving DecidableEq, Repr

/-- The main log line emitted by the `gst_log!` macro at a given level:
"element {path}: {text}" when the source element is known, and
"unknown element: {text}" otherwise. -/
def gstMainLog (lvl : LogLevel) (src : Option String) (text : String) : LogMsg :=
  match src with
  | some path => ⟨lvl, "element " ++ path ++ ": " ++ text⟩
  | none => ⟨lvl, "unknown element: " ++ text⟩

/-- All log records the `gst_log!` macro emits: the main line plus, when the
message carries a debug detail, a debug record. -/
def gstLog (lvl : LogLevel) (src : Option String) (text : String)
    (dbg : Option String) : List LogMsg :=
  gstMainLog lvl src text ::
    (match dbg with
     | some d => [⟨LogLevel.debug, d⟩]
     | none => [])

/-- Why the bus loop stopped consuming messages. -/
inductive TermReason where
  | byError
  | byEos
  | byClosure
deriving DecidableEq, Repr

/-- Embedding of the `for msg in bus.iter_timed(ClockTime::NONE)` loop
(main.rs lines 192-212) over the (finite prefix of the) message stream:
returns, in order, the log records emitted, the messages actually consumed
by a loop iteration, and the reason the loop ended.  Error logs via
`gst_error!` and breaks; Eos logs "Received EOS" at error level and breaks;
Warning and Info log via `gst_warn!` / `gst_info!` and continue; any other
message matches the `_ => {}` arm and continues silently; stream exhaustion
ends the loop. -/
def busLoop : List Message → List LogMsg × List Message × TermReason
  | [] => ([], [], TermReason.byClosure)
  | Message.error s t d :: _ =>
      (gstLog LogLevel.error s t d, [Message.error s t d], TermReason.byError)
  | Message.eos :: _ =>
      ([⟨LogLevel.error, "Received EOS"⟩], [Message.eos], TermReason.byEos)
  | Message.warning s t d :: rest =>
      let r := busLoop rest
      (gstLog LogLevel.warn s t d ++ r.1, Message.warning s t d :: r.2.1, r.2.2)
  | Message.info s t d :: rest =>
      let r := busLoop rest
      (gstLog LogLevel.info s t d ++ r.1, Message.info s t d :: r.2.1, r.2.2)
  | Message.other :: rest =>
      let r := busLoop rest
      (r.1, Message.other :: r.2.1, r.2.2)

/-- Outcome of running the bus loop and the epilogue of `main`: the emitted
logs, the consumed messages, the termination reason, how many times a
transition to the Null state was requested, and whether `main` returns
`Ok(())` (process exit code 0) rather than `Err` (nonzero exit). -/
structure LoopOutcome where
  logs : List LogMsg
  processed : List Message
  reason : TermReason
  nullRequests : Nat
  exitOk : Bool
deriving DecidableEq, Repr

/-- The event loop plus the epilogue of `main` (lines 192-216): after the
loop ends — whatever ended it — `pipeline.set_state(gst::State::Null)?` is
executed exactly once; `nullOk` says whether the runtime accepts that
request.  Because of the `?`, a rejected Null transition makes `main`
return `Err` (nonzero exit); otherwise `main` returns `Ok(())`. -/
def runEventLoop (msgs : List Message) (nullOk : Bool) : LoopOutcome :=
  let r := busLoop msgs
  { logs := r.1
    processed := r.2.1
    reason := r.2.2
    nullRequests := 1
    exitOk := nullOk }

/-- A message that terminates the loop: Error or EndOfStream. -/
def isTerminal : Message → Bool
  | Message.error _ _ _ => true
  | Message.eos => true
  | _ => false

/-- Specification-side characterisation of the consumed messages: the
longest prefix of non-terminal messages, plus the first terminal message
when one exists ("the loop terminates at the first Error or EndOfStream
notification and never processes any notification after it"). -/
def processedSpec (msgs : List Message) : List Message :=
  msgs.takeWhile (fun m => !isTerminal m)
    ++ (msgs.dropWhile (fun m => !isTerminal m)).take 1

/-- Specification-side log records of one consumed message, mirroring the
table in §4.5 of the spec. -/
def msgLogsSpec : Message → List LogMsg
  | Message.error s t d => gstLog LogLevel.error s t d
  | Message.warning s t d => gstLog LogLevel.warn s t d
  | Message.info s t d => gstLog LogLevel.info s t d
  | Message.eos => [⟨LogLevel.error, "Received EOS"⟩]
  | Message.other => []

/-- Outcome of a whole Kvs-subcommand run of `main`: the setup trace and,
when the run reaches the event loop, its outcome. -/
structure MainOutcome where
  setup : SetupOutcome
  loopRan : Bool
  processed : List Message
  logs : List LogMsg
  nullRequests : Nat
  exitOk : Bool
deriving Repr

/-- Embedding of `main` for the `Kvs` subcommand (lines 156-217), from the
point where the pipeline and the source/depayloader elements exist:
`setup_kvssink` runs first; an `Err` propagates through `?`, so `main`
returns nonzero before the handler is registered, before
`set_state(Playing)` and before any bus message is consumed.  Otherwise
`set_state(Playing)?` runs (`playOk` oracle; a rejection also exits before
the loop), then the event loop and the Null epilogue. -/
def mainKvs (kvs_config : KvsConfig) (env : Env) (msgs : List Message)
    (playOk nullOk : Bool) : MainOutcome :=
  let setup := setup_kvssink kvs_config env
  match setup.result with
  | Except.error _ =>
      { setup := setup, loopRan := false, processed := [], logs := []
        nullRequests := 0, exitOk := false }
  | Except.ok _ =>
      if playOk then
        let out := runEventLoop msgs nullOk
        { setup := setup, loopRan := true, processed := out.processed
          logs := out.logs, nullRequests := out.nullRequests
          exitOk := out.exitOk }
      else
        { setup := setup, loopRan := false, processed := [], logs := []
          nullRequests := 0, exitOk := false }

/-- Modelled from the spec: the Pipeline Graph's `add` operation (§4.2).
The graph container and its add/link operations are provided by the
external GStreamer runtime, not by this repository's sources; per the spec,
`add` registers a stage by instance name and fails with
`DuplicateStageError` when an instance with the same name already exists. -/
def addStage (g : List String) (s : String) : Except String (List String) :=
  if g.contains s then Except.error ("DuplicateStageError: " ++ s)
  else Except.ok (g ++ [s])

/-- Modelled from the spec: the sequential attempt underlying `add_many` —
add each stage in turn, stopping at the first failure. -/
def addManyGo (g : List String) : List String → Except String (List String)
  | [] => Except.ok g
  | s :: rest =>
      match addStage g s with
      | Except.error e => Except.error e
      | Except.ok g2 => addManyGo g2 rest

/-- Modelled from the spec: `add_many(stages)` (§4.2), the atomic
all-or-nothing batch add — when any stage fails to add, the graph is left
as it was and the first failure is surfaced. -/
def add_many (g : List String) (ss : List String) : List String × Option String :=
  match addManyGo g ss with
  | Except.ok g2 => (g2, none)
  | Except.error e => (g, some e)

/-- A `Kvs` configuration with every optional flag omitted — in particular
no `--stream-name`. -/
def cfgNoStreamName : KvsConfig :=
  { aws_access_key_id := none
    aws_secret_key := none
    stream_name := none
    aws_region := none }

/-- An environment that does bind `KVS_STREAM_NAME`. -/
def envWithStream : Env := [("KVS_STREAM_NAME", "my-stream")]

/-- A `Kvs` configuration with credentials and region but no stream name. -/
def cfgCredsNoStreamName : KvsConfig :=
  { aws_access_key_id := some "AKIAEXAMPLE"
    aws_secret_key := some "secretExample"
    stream_name := none
    aws_region := some "ap-northeast-1" }

/-- An RTP caps structure whose "media" attribute is "audio". -/
def audioStruct : CapsStruct :=
  { name := "application/x-rtp", fields := [("media", "audio")] }

/-- An RTP caps structure whose "media" attribute is "video". -/
def videoStruct : CapsStruct :=
  { name := "application/x-rtp", fields := [("media", "video")] }

/-- A producing pad carrying the audio caps. -/
def audioPad : SrcPad :=
  { padName := "recv_rtp_src_1_audio", currentCaps := some [audioStruct] }

/-- A producing pad carrying the video caps. -/
def videoPad1 : SrcPad :=
  { padName := "recv_rtp_src_0", currentCaps := some [videoStruct] }

/-- A second producing pad carrying the video caps (a duplicate
notification for the same logical stream). -/
def videoPad2 : SrcPad :=
  { padName := "recv_rtp_src_0_dup", currentCaps := some [videoStruct] }

/-- The depayloader sink-pad state before any link: unlinked. -/
def stEmpty : HandlerState := { sinkLinkedFrom := [] }

/-- The Error bus message of end-to-end scenario C: an error whose source
element is the RTSP source, named "source". -/
def scenarioCMsg : Message :=
  Message.error (some "source") "Internal data stream error" none

/-- Per-message log records accumulated over a list of messages, used to
state what the event loop logs for the sequence it consumes. -/
def logsSpec : List Message → List LogMsg
  | [] => []
  | m :: rest => msgLogsSpec m ++ logsSpec rest

/-! Theorems. -/

/-- C1: the claim says that with the stream name absent from the explicit
configuration but `KVS_STREAM_NAME` bound in the environment, no error is
raised and the stream-name property is set to the environment value.  The
code instead raises the missing-parameter error on that exact input and
never assigns the stream-name property: the `ok_or_else` pattern wraps the
`env::var` result inside the `Err` payload and discards it, so the
environment fallback the error message itself advertises is never applied.
This theorem evaluates `setup_kvssink` at the failing input. -/
theorem C1_env_fallback_never_applied :
    (setup_kvssink cfgNoStreamName envWithStream).result
        = Except.error missingStreamNameMsg
  ∧ List.lookup "stream-name"
        (setup_kvssink cfgNoStreamName envWithStream).kvssinkProps = none :=
  ⟨rfl, rfl⟩

/-- C10: in `setup_kvssink` the access-key and secret-key properties are
assigned exactly when the corresponding explicit configuration field is
present (first two conjuncts: the assigned value is the explicit field's
value, and `none` means no assignment); the whole setup outcome is
independent of the environment, so no environment value is ever applied
(third conjunct); and setup fails only for a missing stream name — missing
credentials never cause a startup failure (fourth conjunct). -/
theorem C10_credentials_explicit_only (kvs_config : KvsConfig) (env : Env) :
    List.lookup "access-key" (setup_kvssink kvs_config env).kvssinkProps
        = kvs_config.aws_access_key_id
  ∧ List.lookup "secret-key" (setup_kvssink kvs_config env).kvssinkProps
        = kvs_config.aws_secret_key
  ∧ setup_kvssink kvs_config env = setup_kvssink kvs_config []
  ∧ ((setup_kvssink kvs_config env).result = Except.ok ()
        ↔ kvs_config.stream_name ≠ none) := by
  obtain ⟨a, s, n, r⟩ := kvs_config
  cases a <;> cases s <;> cases n <;> cases r <;>
    simp [setup_kvssink, okOrElse, List.lookup]

/-- C2: for an invocation of the `pad-added` handler whose consumer pad is
not yet linked and whose caps (with a first structure) are available, a
link is attempted if and only if the structure's media-type name equals
"application/x-rtp" and its "media" attribute equals "video" (the second
conjunct spells the acceptance test out as the two case-sensitive exact
string matches); for every rejected descriptor the state is unchanged and
every log record the invocation emits is informational — no warning and no
error is logged. -/
theorem C2_format_filter (srcName : String) (srcPad : SrcPad) (linkOk : Bool)
    (st : HandlerState) (hnl : st.sinkLinkedFrom = [])
    (s : CapsStruct) (rest : List CapsStruct)
    (hc : srcPad.currentCaps = some (s :: rest)) :
    ((pad_added srcName srcPad linkOk st).linkAttempted = true
        ↔ acceptsStruct s = true)
  ∧ (acceptsStruct s = true
        ↔ (s.name = "application/x-rtp"
            ∧ List.lookup "media" s.fields = some "video"))
  ∧ (acceptsStruct s = false →
        (pad_added srcName srcPad linkOk st).state = st
      ∧ ∀ l ∈ (pad_added srcName srcPad linkOk st).logs,
            l.level = LogLevel.info) := by
  refine ⟨?_, ?_, ?_⟩
  · cases hA : acceptsStruct s <;> cases linkOk <;>
      simp [pad_added, hnl, hc, hA]
  · cases hm : List.lookup "media" s.fields <;>
      simp [acceptsStruct, hm]
  · intro hA
    constructor
    · simp [pad_added, hnl, hc, hA]
    · intro l hl
      simp [pad_added, hnl, hc, hA] at hl
      simp [hl]

/-- C2 witness: the handler applied to an unlinked consumer and an RTP pad
whose "media" attribute is "audio", with the hypotheses discharged at the
concrete input. -/
theorem C2_format_filter_witness :
    stEmpty.sinkLinkedFrom = []
  ∧ audioPad.currentCaps = some (audioStruct :: [])
  ∧ ((pad_added "source" audioPad true stEmpty).linkAttempted = true
        ↔ acceptsStruct audioStruct = true)
  ∧ (pad_added "source" audioPad true stEmpty).linkAttempted = false := by
  have h := C2_format_filter "source" audioPad true stEmpty rfl
    audioStruct [] rfl
  refine ⟨rfl, rfl, h.1, ?_⟩
  by_contra hb
  have : (pad_added "source" audioPad true stEmpty).linkAttempted = true := by
    cases hx : (pad_added "source" audioPad true stEmpty).linkAttempted
    · exact absurd hx hb
    · rfl
  exact absurd (h.1.mp this) (by decide)

/-- C3: idempotence of the `pad-added` handler.  Starting from an unlinked
consumer pad, a first invocation with an accepted video/RTP descriptor
whose link succeeds leaves exactly the one link, and a second invocation
with another accepted video/RTP descriptor leaves the state untouched,
attempts no link, does not read the caps, and logs "Already linked;
ignoring". -/
theorem C3_handler_idempotent (n1 n2 : String) (p1 p2 : SrcPad)
    (st0 : HandlerState) (h0 : st0.sinkLinkedFrom = [])
    (s1 s2 : CapsStruct) (r1 r2 : List CapsStruct)
    (hc1 : p1.currentCaps = some (s1 :: r1))
    (hc2 : p2.currentCaps = some (s2 :: r2))
    (ha1 : acceptsStruct s1 = true) (ha2 : acceptsStruct s2 = true)
    (lk2 : Bool) :
    (pad_added n1 p1 true st0).state.sinkLinkedFrom = [p1.padName]
  ∧ (pad_added n2 p2 lk2 (pad_added n1 p1 true st0).state).state.sinkLinkedFrom
        = [p1.padName]
  ∧ (pad_added n2 p2 lk2 (pad_added n1 p1 true st0).state).linkAttempted = false
  ∧ (pad_added n2 p2 lk2 (pad_added n1 p1 true st0).state).readCaps = false
  ∧ ⟨LogLevel.info, "Already linked; ignoring"⟩
        ∈ (pad_added n2 p2 lk2 (pad_added n1 p1 true st0).state).logs := by
  have hstep : (pad_added n1 p1 true st0).state
      = { sinkLinkedFrom := [p1.padName] } := by
    simp [pad_added, h0, hc1, ha1]
  rw [hstep]
  refine ⟨rfl, ?_, ?_, ?_, ?_⟩ <;> simp [pad_added]

/-- C3 witness: two concrete invocations with video/RTP pads, the
hypotheses discharged at the concrete inputs. -/
theorem C3_handler_idempotent_witness :
    stEmpty.sinkLinkedFrom = []
  ∧ videoPad1.currentCaps = some (videoStruct :: [])
  ∧ videoPad2.currentCaps = some (videoStruct :: [])
  ∧ acceptsStruct videoStruct = true
  ∧ (pad_added "source" videoPad2 true
        (pad_added "source" videoPad1 true stEmpty).state).state.sinkLinkedFrom
        = [videoPad1.padName]
  ∧ (pad_added "source" videoPad2 true
        (pad_added "source" videoPad1 true stEmpty).state).linkAttempted
        = false := by
  have h := C3_handler_idempotent "source" "source" videoPad1 videoPad2
    stEmpty rfl videoStruct videoStruct [] [] rfl rfl (by decide) (by decide)
    true
  exact ⟨rfl, rfl, rfl, by decide, h.2.1, h.2.2.1⟩

/-- C4: when the descriptor is accepted and the link attempt fails, the
handler logs "Failed to link" at error level, does not panic, and leaves
the state unchanged — the closure returns normally (its Rust type is `()`:
there is no channel through which the failure could propagate or end the
event loop).  When the link succeeds, an informational "Link succeeded"
record is emitted and again no panic occurs. -/
theorem C4_link_failure_not_fatal (srcName : String) (srcPad : SrcPad)
    (st : HandlerState) (hnl : st.sinkLinkedFrom = [])
    (s : CapsStruct) (rest : List CapsStruct)
    (hc : srcPad.currentCaps = some (s :: rest))
    (ha : acceptsStruct s = true) :
    ((pad_added srcName srcPad false st).linkAttempted = true
  ∧ (pad_added srcName srcPad false st).panicked = false
  ∧ ⟨LogLevel.error, "Failed to link"⟩ ∈ (pad_added srcName srcPad false st).logs
  ∧ (pad_added srcName srcPad false st).state = st)
  ∧ ((pad_added srcName srcPad true st).panicked = false
  ∧ ⟨LogLevel.info, "Link succeeded"⟩
        ∈ (pad_added srcName srcPad true st).logs) := by
  refine ⟨⟨?_, ?_, ?_, ?_⟩, ⟨?_, ?_⟩⟩ <;> simp [pad_added, hnl, hc, ha]

/-- C4 witness: the failing and the succeeding link at a concrete video/RTP
input, with the hypotheses discharged there. -/
theorem C4_link_failure_not_fatal_witness :
    stEmpty.sinkLinkedFrom = []
  ∧ videoPad1.currentCaps = some (videoStruct :: [])
  ∧ acceptsStruct videoStruct = true
  ∧ (pad_added "source" videoPad1 false stEmpty).panicked = false
  ∧ ⟨LogLevel.error, "Failed to link"⟩
        ∈ (pad_added "source" videoPad1 false stEmpty).logs := by
  have h := C4_link_failure_not_fatal "source" videoPad1 stEmpty rfl
    videoStruct [] rfl (by decide)
  exact ⟨rfl, rfl, by decide, h.1.2.1, h.1.2.2.1⟩

/-- Closed-form characterisation of the bus loop: it consumes exactly the
non-terminal prefix plus the first terminal message, and emits exactly the
per-message log records of what it consumed. -/
theorem busLoop_characterised (msgs : List Message) :
    (busLoop msgs).2.1 = processedSpec msgs
  ∧ (busLoop msgs).1 = logsSpec (processedSpec msgs) := by
  induction msgs with
  | nil => exact ⟨rfl, rfl⟩
  | cons m rest ih =>
      obtain ⟨ih1, ih2⟩ := ih
      cases m <;>
        simp [busLoop, processedSpec, isTerminal, msgLogsSpec, logsSpec,
          List.takeWhile_cons, List.dropWhile_cons, ih1, ih2]

/-- C5: for every message sequence, the event loop consumes exactly the
longest error-and-EOS-free prefix plus the first Error or EndOfStream
message when one exists (so each Info and each Warning before the first
terminal message is processed, the loop continues past them, and nothing
after the first terminal message is ever processed); the records it logs
are exactly the per-message records of what it consumed (each Info and
Warning is logged); and however the loop ended — Error, EndOfStream or
stream closure — exactly one transition to Null is requested afterwards. -/
theorem C5_event_loop_terminal (msgs : List Message) (nullOk : Bool) :
    (runEventLoop msgs nullOk).processed = processedSpec msgs
  ∧ (runEventLoop msgs nullOk).logs = logsSpec (processedSpec msgs)
  ∧ (runEventLoop msgs nullOk).nullRequests = 1 := by
  have h := busLoop_characterised msgs
  exact ⟨h.1, h.2, rfl⟩

/-- C6 counterexample: the claim says a failure of the Null transition does
not change the process's exit outcome.  On the same terminating run (a
single EndOfStream message), the code exits nonzero when the Null
transition fails and zero when it succeeds — `set_state(gst::State::Null)?`
propagates the failure out of `main` — so the Null outcome alone flips the
exit outcome. -/
theorem C6_counterexample :
    (runEventLoop [Message.eos] false).exitOk
      ≠ (runEventLoop [Message.eos] true).exitOk := by
  decide

/-- C6 amended: after the event loop terminates the controller requests the
Null transition exactly once, and the process exit outcome equals the
outcome of that Null request — `main` returns `Ok(())` (exit code 0) when
it is accepted and `Err` (nonzero) when it is rejected, regardless of
whether Error or EndOfStream ended the loop. -/
theorem C6_null_once_exit_follows_null (msgs : List Message) (nullOk : Bool) :
    (runEventLoop msgs nullOk).nullRequests = 1
  ∧ (runEventLoop msgs nullOk).exitOk = nullOk :=
  ⟨rfl, rfl⟩

/-- C7 counterexample: an Error notification naming stage "source" arrives
while running and a further notification is queued behind it.  As the claim
says, the error is logged with "source" as context, Null is requested and
the later notification is never processed — but the process exit is
`Ok(())` (exit code 0, shown here with the Null transition succeeding), not
the nonzero exit the claim states: after the `break`, `main` falls through
to `Ok(())`. -/
theorem C7_counterexample :
    isTerminal scenarioCMsg = true
  ∧ (runEventLoop [scenarioCMsg, Message.info none "late" none] true).processed
        = [scenarioCMsg]
  ∧ gstMainLog LogLevel.error (some "source") "Internal data stream error"
        ∈ (runEventLoop [scenarioCMsg, Message.info none "late" none] true).logs
  ∧ (runEventLoop [scenarioCMsg, Message.info none "late" none] true).nullRequests
        = 1
  ∧ (runEventLoop [scenarioCMsg, Message.info none "late" none] true).exitOk
        = true := by
  decide

/-- C7 amended: when an Error notification whose source element is "source"
arrives, the controller logs the error with "source" as context
("element source: ..."), consumes nothing beyond that message, requests the
Null transition once, and — when the Null transition succeeds — the process
exits with exit code 0 (`main` returns `Ok(())`), not nonzero. -/
theorem C7_error_from_source_exits_zero (t : String) (d : Option String)
    (rest : List Message) :
    (runEventLoop (Message.error (some "source") t d :: rest) true).processed
        = [Message.error (some "source") t d]
  ∧ gstMainLog LogLevel.error (some "source") t
        ∈ (runEventLoop (Message.error (some "source") t d :: rest) true).logs
  ∧ (runEventLoop (Message.error (some "source") t d :: rest) true).nullRequests
        = 1
  ∧ (runEventLoop (Message.error (some "source") t d :: rest) true).exitOk
        = true := by
  refine ⟨rfl, ?_, rfl, rfl⟩
  simp [runEventLoop, busLoop, gstLog]

/-- C8 counterexample: with the stream name absent from both the explicit
configuration and the environment, the missing-parameter error is surfaced
— but the `kvssink` ingestion-sink element has already been created at that
point (`create_element("kvssink", ..)` runs on line 113, before the
stream-name check on lines 120-121), contradicting the claim that the
error is raised before any stage touching the ingestion sink is created. -/
theorem C8_counterexample :
    (setup_kvssink cfgNoStreamName []).result
        = Except.error missingStreamNameMsg
  ∧ ("kvssink", "kvssink") ∈ (setup_kvssink cfgNoStreamName []).created := by
  exact ⟨rfl, by decide⟩

/-- C8 amended: when the stream name is absent from the explicit
configuration (in particular when it is absent from both the configuration
and the environment — the environment is never consulted), the
missing-parameter error is raised before any stage is added to the
pipeline and before any link is made, so no partial pipeline is built; the
error propagates out of `main` before the event loop starts, so the loop
never runs, no notification is consumed, no Null transition is requested
and the process exits nonzero.  The ingestion-sink element object itself,
however, has already been created when the error is surfaced. -/
theorem C8_no_partial_pipeline (kvs_config : KvsConfig) (env : Env)
    (msgs : List Message) (playOk nullOk : Bool)
    (hn : kvs_config.stream_name = none) :
    (mainKvs kvs_config env msgs playOk nullOk).setup.result
        = Except.error missingStreamNameMsg
  ∧ (mainKvs kvs_config env msgs playOk nullOk).setup.added = []
  ∧ (mainKvs kvs_config env msgs playOk nullOk).setup.linked = []
  ∧ (mainKvs kvs_config env msgs playOk nullOk).loopRan = false
  ∧ (mainKvs kvs_config env msgs playOk nullOk).processed = []
  ∧ (mainKvs kvs_config env msgs playOk nullOk).nullRequests = 0
  ∧ (mainKvs kvs_config env msgs playOk nullOk).exitOk = false
  ∧ ("kvssink", "kvssink") ∈ (mainKvs kvs_config env msgs playOk nullOk).setup.created := by
  obtain ⟨a, s, n, r⟩ := kvs_config
  have hn2 : n = none := hn
  subst hn2
  refine ⟨?_, ?_, ?_, ?_, ?_, ?_, ?_, ?_⟩ <;>
    simp [mainKvs, setup_kvssink, okOrElse]

/-- C8 witness: a configuration carrying credentials and a region but no
stream name, an empty environment, and a queued EndOfStream message; the
hypothesis is discharged at the concrete input. -/
theorem C8_no_partial_pipeline_witness :
    cfgCredsNoStreamName.stream_name = none
  ∧ (mainKvs cfgCredsNoStreamName [] [Message.eos] true true).loopRan = false
  ∧ (mainKvs cfgCredsNoStreamName [] [Message.eos] true true).setup.added = []
  ∧ ("kvssink", "kvssink")
        ∈ (mainKvs cfgCredsNoStreamName [] [Message.eos] true true).setup.created := by
  have h := C8_no_partial_pipeline cfgCredsNoStreamName [] [Message.eos]
    true true rfl
  exact ⟨rfl, h.2.2.2.1, h.2.1, h.2.2.2.2.2.2.2⟩

/-- Helper for C9: when the sequential batch add fails, the surfaced error
is the error of the first stage whose add fails, all earlier stages having
been added successfully up to that point. -/
theorem addManyGo_error_first (e : String) :
    ∀ (ss g : List String), addManyGo g ss = Except.error e →
      ∃ pre stg post g2, ss = pre ++ stg :: post
        ∧ addManyGo g pre = Except.ok g2
        ∧ addStage g2 stg = Except.error e := by
  intro ss
  induction ss with
  | nil =>
      intro g h
      simp [addManyGo] at h
  | cons s rest ih =>
      intro g h
      simp only [addManyGo] at h
      cases hA : addStage g s with
      | error e2 =>
          rw [hA] at h
          simp only [] at h
          have he : e2 = e := by
            cases h
            rfl
          exact ⟨[], s, rest, g, rfl, rfl, by rw [hA, he]⟩
      | ok g2 =>
          rw [hA] at h
          simp only [] at h
          obtain ⟨pre, stg, post, g3, hss, hgo, hst⟩ := ih g2 h
          refine ⟨s :: pre, stg, post, g3, by simp [hss], ?_, hst⟩
          simp only [addManyGo, hA]
          exact hgo

/-- C9: atomicity of the (spec-modelled) `add_many`.  When the batch add of
`ss` into graph `g` fails, the graph afterwards is exactly the original
`g`, so no stage of the batch that was not already a member is present
afterwards — in particular none of stages 1..k-1 of a batch whose stage k
fails — and the surfaced error is the failure of the first stage whose add
fails. -/
theorem C9_add_many_atomic (g ss : List String) (e : String)
    (hfail : (add_many g ss).2 = some e) :
    (add_many g ss).1 = g
  ∧ (∀ s ∈ ss, s ∉ g → s ∉ (add_many g ss).1)
  ∧ (∃ pre stg post g2, ss = pre ++ stg :: post
        ∧ addManyGo g pre = Except.ok g2
        ∧ addStage g2 stg = Except.error e) := by
  cases hgo : addManyGo g ss with
  | ok g2 => simp [add_many, hgo] at hfail
  | error e2 =>
      have he : e2 = e := by simpa [add_many, hgo] using hfail
      subst he
      refine ⟨?_, ?_, addManyGo_error_first e2 ss g hgo⟩
      · simp [add_many, hgo]
      · intro s hs hsg
        simpa [add_many, hgo] using hsg

/-- C9 witness: adding the batch ["b", "a", "c"] to a graph already
containing "a" fails at the duplicate "a"; the graph is left unchanged, so
the previously-added "b" is not a member afterwards, and the surfaced
error names the duplicate.  The hypothesis is discharged at the concrete
input. -/
theorem C9_add_many_atomic_witness :
    (add_many ["a"] ["b", "a", "c"]).2 = some "DuplicateStageError: a"
  ∧ (add_many ["a"] ["b", "a", "c"]).1 = ["a"]
  ∧ "b" ∉ (add_many ["a"] ["b", "a", "c"]).1 := by
  have h := C9_add_many_atomic ["a"] ["b", "a", "c"]
    "DuplicateStageError: a" (by decide)
  exact ⟨by decide, h.1, h.2.1 "b" (by decide) (by decide)⟩

end RtspToKvs
